import Mathlib

/-!
Shallow embedding of the QuickBooks Online client (`QuickBooksClient` in
`src/auth/oauth.ts`): OAuth token refresh with caching and rotation, the
query-string builder for the five entity list operations, invoice creation,
the single-customer lookup, and the Profit & Loss report parser.

Conventions of the embedding:
* JavaScript `number` values that carry money or quantities are modelled as
  rationals (`ℚ`); instants (`Date`, `Date.now()`) are modelled as integer
  milliseconds since the epoch.
* Optional TypeScript fields become `Option` values; JavaScript truthiness
  tests on strings (`if (s)`) become `s ≠ ""`, on numbers (`n || d`) become
  `if n = 0 then d else n`, and on optional values they test presence and
  non-emptiness, exactly as the source does.
* Network effects are made explicit: each operation takes the outcome of the
  token exchange and of the HTTP request as `Except`-valued parameters and
  threads the mutable client state (`config`, `accessToken`, `tokenExpiry`)
  explicitly.
-/

/-- Configuration record (`QBConfig` in `src/types.ts`). -/
structure QBConfig where
  clientId : String
  clientSecret : String
  refreshToken : String
  companyId : String
  environment : String
  deriving DecidableEq

/-- OAuth token endpoint response (`TokenResponse` in `src/types.ts`). -/
structure TokenResponse where
  access_token : String
  refresh_token : String
  expires_in : Int
  deriving DecidableEq

/-- Mutable state of `QuickBooksClient`: the stored config plus the cached
access token and its expiry instant (ms since epoch; initially `new Date(0)`,
i.e. `0`). -/
structure ClientState where
  config : QBConfig
  accessToken : String
  tokenExpiry : Int
  deriving DecidableEq

/-- `getAccessToken` (src/unnamed/part_004 lines 52-83): return the cached
token if it is non-empty and not yet expired (`this.accessToken &&
this.tokenExpiry > new Date()`); otherwise perform the refresh exchange
(whose outcome is the `exch` parameter), store the new access token, set the
expiry to `now + (expires_in - 60) * 1000` ms, and overwrite the stored
refresh token when the response carries a non-empty one
(`if (response.data.refresh_token)`). -/
def getAccessToken (s : ClientState) (now : Int) (exch : Except String TokenResponse) :
    Except String String × ClientState :=
  if s.accessToken ≠ "" ∧ s.tokenExpiry > now then
    (Except.ok s.accessToken, s)
  else
    match exch with
    | Except.error e => (Except.error e, s)
    | Except.ok resp =>
        (Except.ok resp.access_token,
          { config :=
              if resp.refresh_token ≠ "" then
                { s.config with refreshToken := resp.refresh_token }
              else s.config
            accessToken := resp.access_token
            tokenExpiry := now + (resp.expires_in - 60) * 1000 })

/-- The axios request interceptor (src/unnamed/part_004 lines 42-46): every
API call first obtains a bearer token via `getAccessToken` and then performs
the request; the token-state mutation persists whether or not the request
itself succeeds, and a failed token refresh aborts the request. -/
def withAuth {α : Type} (s : ClientState) (now : Int) (exch : Except String TokenResponse)
    (call : String → Except String α) : Except String α × ClientState :=
  match getAccessToken s now exch with
  | (Except.error e, s₁) => (Except.error e, s₁)
  | (Except.ok tok, s₁) => (call tok, s₁)

/-- JavaScript `v || d` defaulting for an optional numeric option: `undefined`
and `0` are falsy, every other integer is truthy. -/
def jsOrDefault (v : Option Int) (d : Int) : Int :=
  match v with
  | some n => if n = 0 then d else n
  | none => d

/-- JavaScript `v || d` defaulting for an optional rational (used by
`createInvoice` for `item.quantity || 1`). -/
def jsOrQ (v : Option ℚ) (d : ℚ) : ℚ :=
  match v with
  | some q => if q = 0 then d else q
  | none => d

/-- `query` (src/unnamed/part_004 lines 88-93): build
`SELECT * FROM <entity>`, append ` WHERE <clause>` when a where-clause is
given, then append ` STARTPOSITION <offset+1> MAXRESULTS <limit>`. -/
def querySql (entityType : String) (whereClause : Option String) (limit offset : Int) : String :=
  let base := "SELECT * FROM " ++ entityType
  let withWhere :=
    match whereClause with
    | some w => base ++ " WHERE " ++ w
    | none => base
  withWhere ++ " STARTPOSITION " ++ toString (offset + 1) ++ " MAXRESULTS " ++ toString limit

/-- `conditions.length ? conditions.join(" AND ") : undefined`. -/
def joinConds (cs : List String) : Option String :=
  if cs.isEmpty then none else some (String.intercalate " AND " cs)

/-- The textual contribution of a condition list to the query: empty when
there are no conditions, otherwise ` WHERE ` followed by the conditions
joined with ` AND `. -/
def whereText (cs : List String) : String :=
  if cs.isEmpty then "" else " WHERE " ++ String.intercalate " AND " cs

/-- The `Active = true` predicate pushed by `queryCustomers` and
`queryVendors` whenever `options.activeOnly !== false`. -/
def activeCond (activeOnly : Option Bool) : List String :=
  if activeOnly ≠ some false then ["Active = true"] else []

/-- The `DisplayName LIKE '%<term>%'` predicate pushed by `queryCustomers`
when `options.search` is truthy (present and non-empty); the term is
interpolated verbatim, with no escaping. -/
def searchConds (search : Option String) : List String :=
  match search with
  | some t => if t ≠ "" then ["DisplayName LIKE \x27%" ++ t ++ "%\x27"] else []
  | none => []

/-- A predicate `<pre><value><post>` pushed when an optional string option is
truthy (present and non-empty), e.g. `CustomerRef = '<id>'`. -/
def optStrCond (pre post : String) (v : Option String) : List String :=
  match v with
  | some x => if x ≠ "" then [pre ++ x ++ post] else []
  | none => []

/-- Options of `queryCustomers` (src/unnamed/part_004 lines 105-110). -/
structure CustomerQueryOptions where
  limit : Option Int := none
  offset : Option Int := none
  activeOnly : Option Bool := none
  search : Option String := none
  deriving DecidableEq

/-- Condition list built by `queryCustomers` (lines 111-119). -/
def customersConditions (o : CustomerQueryOptions) : List String :=
  activeCond o.activeOnly ++ searchConds o.search

/-- Query string issued by `queryCustomers` (lines 121-126): conditions plus
`options.limit || 100` and `options.offset || 0`. -/
def customersQuerySql (o : CustomerQueryOptions) : String :=
  querySql "Customer" (joinConds (customersConditions o))
    (jsOrDefault o.limit 100) (jsOrDefault o.offset 0)

/-- Options of `queryInvoices` (src/unnamed/part_004 lines 140-147); `status`
is one of "all" | "open" | "paid" | "overdue" when present. -/
structure InvoiceQueryOptions where
  limit : Option Int := none
  offset : Option Int := none
  customerId : Option String := none
  status : Option String := none
  startDate : Option String := none
  endDate : Option String := none
  deriving DecidableEq

/-- Status predicate of `queryInvoices` (lines 154-158): "open" pushes
`Balance > '0'`, "paid" pushes `Balance = '0'`, anything else pushes
nothing. -/
def statusConds (status : Option String) : List String :=
  if status = some "open" then ["Balance > \x270\x27"]
  else if status = some "paid" then ["Balance = \x270\x27"]
  else []

/-- Condition list built by `queryInvoices` (lines 148-166). -/
def invoicesConditions (o : InvoiceQueryOptions) : List String :=
  optStrCond "CustomerRef = \x27" "\x27" o.customerId ++
  statusConds o.status ++
  optStrCond "TxnDate >= \x27" "\x27" o.startDate ++
  optStrCond "TxnDate <= \x27" "\x27" o.endDate

/-- Query string issued by `queryInvoices` (lines 168-173). -/
def invoicesQuerySql (o : InvoiceQueryOptions) : String :=
  querySql "Invoice" (joinConds (invoicesConditions o))
    (jsOrDefault o.limit 100) (jsOrDefault o.offset 0)

/-- Options of `queryAccounts` (src/unnamed/part_004 lines 204-208). -/
structure AccountQueryOptions where
  accountType : Option String := none
  limit : Option Int := none
  offset : Option Int := none
  deriving DecidableEq

/-- Condition list built by `queryAccounts` (lines 209-213): always starts
with `Active = true`, optionally followed by `AccountType = '<type>'`. -/
def accountsConditions (o : AccountQueryOptions) : List String :=
  "Active = true" :: optStrCond "AccountType = \x27" "\x27" o.accountType

/-- Query string issued by `queryAccounts` (lines 215-220): the condition
list is always non-empty and is joined unconditionally; note the defaults
`options.limit || 1000` and `options.offset || 0`. -/
def accountsQuerySql (o : AccountQueryOptions) : String :=
  querySql "Account" (some (String.intercalate " AND " (accountsConditions o)))
    (jsOrDefault o.limit 1000) (jsOrDefault o.offset 0)

/-- Options of `queryVendors` (src/unnamed/part_004 lines 225-229). -/
structure VendorQueryOptions where
  limit : Option Int := none
  offset : Option Int := none
  activeOnly : Option Bool := none
  deriving DecidableEq

/-- Condition list built by `queryVendors` (lines 230-234). -/
def vendorsConditions (o : VendorQueryOptions) : List String :=
  activeCond o.activeOnly

/-- Query string issued by `queryVendors` (lines 236-241). -/
def vendorsQuerySql (o : VendorQueryOptions) : String :=
  querySql "Vendor" (joinConds (vendorsConditions o))
    (jsOrDefault o.limit 100) (jsOrDefault o.offset 0)

/-- Options of `queryBills` (src/unnamed/part_004 lines 246-251); `status` is
one of "all" | "unpaid" | "paid" when present. -/
structure BillQueryOptions where
  limit : Option Int := none
  offset : Option Int := none
  vendorId : Option String := none
  status : Option String := none
  deriving DecidableEq

/-- Status predicate of `queryBills` (lines 258-262). -/
def billStatusConds (status : Option String) : List String :=
  if status = some "unpaid" then ["Balance > \x270\x27"]
  else if status = some "paid" then ["Balance = \x270\x27"]
  else []

/-- Condition list built by `queryBills` (lines 252-262). -/
def billsConditions (o : BillQueryOptions) : List String :=
  optStrCond "VendorRef = \x27" "\x27" o.vendorId ++ billStatusConds o.status

/-- Query string issued by `queryBills` (lines 264-269). -/
def billsQuerySql (o : BillQueryOptions) : String :=
  querySql "Bill" (joinConds (billsConditions o))
    (jsOrDefault o.limit 100) (jsOrDefault o.offset 0)

/-- Opaque customer record (subset of `QBCustomer` in `src/types.ts`);
entity records are remote-owned pass-through values. -/
structure QBCustomer where
  Id : String
  DisplayName : String
  deriving DecidableEq

/-- Opaque invoice record (subset of `QBInvoice` in `src/types.ts`). -/
structure QBInvoice where
  Id : String
  deriving DecidableEq

/-- Opaque account record (subset of `QBAccount` in `src/types.ts`). -/
structure QBAccount where
  Id : String
  Name : String
  deriving DecidableEq

/-- Opaque vendor record (subset of `QBVendor` in `src/types.ts`). -/
structure QBVendor where
  Id : String
  DisplayName : String
  deriving DecidableEq

/-- Opaque bill record (subset of `QBBill` in `src/types.ts`). -/
structure QBBill where
  Id : String
  deriving DecidableEq

/-- A `{ value: ... }` reference object (`QBRef` in `src/types.ts`). -/
structure QBRef where
  value : String
  deriving DecidableEq

/-- A line item as accepted by `createInvoice`
(src/unnamed/part_004 line 178): `{description, amount, quantity?}`. -/
structure LineItemInput where
  description : String
  amount : ℚ
  quantity : Option ℚ := none
  deriving DecidableEq

/-- The nested `SalesItemLineDetail` object of a created invoice line. -/
structure SalesDetail where
  Qty : ℚ
  UnitPrice : ℚ
  deriving DecidableEq

/-- A sales line of the invoice-creation request body
(src/unnamed/part_004 lines 184-193). -/
structure InvoiceLine where
  Id : String
  Amount : ℚ
  DetailType : String
  Description : String
  SalesItemLineDetail : SalesDetail
  deriving DecidableEq

/-- The mapping of one line item at position `idx` (0-based) to a sales line
(src/unnamed/part_004 lines 184-193): `Id = String(idx + 1)`,
`Amount = item.amount * (item.quantity || 1)`,
`DetailType = "SalesItemLineDetail"`, `Qty = item.quantity || 1`,
`UnitPrice = item.amount`. -/
def mkInvoiceLine (idx : Nat) (item : LineItemInput) : InvoiceLine :=
  { Id := toString (idx + 1)
    Amount := item.amount * jsOrQ item.quantity 1
    DetailType := "SalesItemLineDetail"
    Description := item.description
    SalesItemLineDetail := { Qty := jsOrQ item.quantity 1, UnitPrice := item.amount } }

/-- `data.lineItems.map((item, idx) => ...)` of `createInvoice`. -/
def createInvoiceLines (items : List LineItemInput) : List InvoiceLine :=
  items.enum.map fun p => mkInvoiceLine p.1 p.2

/-- Input of `createInvoice` (src/unnamed/part_004 lines 176-180). -/
structure InvoiceCreateData where
  customerId : String
  lineItems : List LineItemInput
  dueDate : Option String := none
  memo : Option String := none
  deriving DecidableEq

/-- The invoice-creation request body (src/unnamed/part_004 lines 182-196);
`DueDate` and `CustomerMemo` are spread in only when the corresponding input
is truthy (present and non-empty). -/
structure InvoiceBody where
  CustomerRef : QBRef
  Line : List InvoiceLine
  DueDate : Option String
  CustomerMemo : Option QBRef
  deriving DecidableEq

/-- `createInvoice`'s construction of the request body. -/
def createInvoiceBody (d : InvoiceCreateData) : InvoiceBody :=
  { CustomerRef := ⟨d.customerId⟩
    Line := createInvoiceLines d.lineItems
    DueDate :=
      match d.dueDate with
      | some dd => if dd ≠ "" then some dd else none
      | none => none
    CustomerMemo :=
      match d.memo with
      | some m => if m ≠ "" then some ⟨m⟩ else none
      | none => none }

/-- One column entry of a report row (`ColData` element). -/
structure ColEntry where
  value : Option String := none
  deriving DecidableEq

/-- The `Summary` object of a report row. -/
structure SummaryObj where
  ColData : Option (List ColEntry) := none
  deriving DecidableEq

/-- A row of the raw Profit & Loss report response; rows carry a `type` or
`group` discriminator and an optional `Summary`. -/
structure ReportRow where
  type : Option String := none
  group : Option String := none
  Summary : Option SummaryObj := none
  deriving DecidableEq

/-- The `Rows` object of the raw report response. -/
structure RowsObj where
  Row : Option (List ReportRow) := none
  deriving DecidableEq

/-- The raw Profit & Loss report response body. -/
structure RawReport where
  Rows : Option RowsObj := none
  deriving DecidableEq

/-- The row filter of `parseAmount`: `r.type === type || r.group === type`. -/
def rowMatches (t : String) (r : ReportRow) : Bool :=
  r.type == some t || r.group == some t

/-- `rows.find(...)?.Summary?.ColData?.[1]?.value`: the second summary column
value of a row, when every link of the optional chain is present. -/
def rowSummaryValue (row : ReportRow) : Option String :=
  (((row.Summary.bind fun s => s.ColData).bind fun cds => cds[1]?).bind fun cd => cd.value)

/-- `parseAmount` (src/unnamed/part_004 lines 286-293): find the first row
whose `type` or `group` equals the discriminator, read its
`Summary.ColData[1].value`, and return `parseFloat(value) || 0`; return `0`
whenever the rows, the row, any link of the chain, or the numeric parse is
absent. The float parse is abstracted as `pf`, where `none` models `NaN`
(so `pf v |>.getD 0` is exactly `parseFloat(v) || 0`, `0 || 0` being `0`). -/
def parseAmount (pf : String → Option ℚ) (rows : Option (List ReportRow)) (t : String) : ℚ :=
  match rows with
  | none => 0
  | some rs =>
    match rs.find? (rowMatches t) with
    | none => 0
    | some row =>
      match row.Summary with
      | none => 0
      | some s =>
        match s.ColData with
        | none => 0
        | some cds =>
          match cds[1]? with
          | none => 0
          | some cd =>
            match cd.value with
            | none => 0
            | some v => if v = "" then 0 else (pf v).getD 0

/-- The flattened report (`ProfitLossReport` in `src/types.ts`). -/
structure ProfitLossReport where
  totalIncome : ℚ
  totalCOGS : ℚ
  grossProfit : ℚ
  totalExpenses : ℚ
  netIncome : ℚ
  deriving DecidableEq

/-- `const rows = report.Rows?.Row || []`. -/
def reportRows (rep : RawReport) : List ReportRow :=
  match rep.Rows with
  | none => []
  | some ro => ro.Row.getD []

/-- The parsing step of `getProfitAndLossReport`
(src/unnamed/part_004 lines 295-303): extract the five totals from the raw
report via `parseAmount`. -/
def parseProfitAndLoss (pf : String → Option ℚ) (rep : RawReport) : ProfitLossReport :=
  { totalIncome := parseAmount pf (some (reportRows rep)) "Income"
    totalCOGS := parseAmount pf (some (reportRows rep)) "COGS"
    grossProfit := parseAmount pf (some (reportRows rep)) "GrossProfit"
    totalExpenses := parseAmount pf (some (reportRows rep)) "Expenses"
    netIncome := parseAmount pf (some (reportRows rep)) "NetIncome" }

/-- Digit list to natural number, most significant first. -/
def digitsToNat (ds : List Char) : Nat :=
  ds.foldl (fun n c => 10 * n + (c.toNat - 48)) 0

/-- Modelled from the spec: the JavaScript `parseFloat` builtin used on
line 290 of src/unnamed/part_004 is not part of this repository; following
the spec ("parse as a floating-point number, default to 0 if absent or
unparsable — non-numeric strings must not throw"), it is modelled here for
plain signed decimal literals: an optional sign, then a longest (possibly
empty) run of digits, then an optional fraction after a dot, ignoring any
trailing garbage; `none` models `NaN` (no leading digits at all). -/
def jsParseFloat (s : String) : Option ℚ :=
  let cs := s.toList
  let signed : ℚ × List Char :=
    match cs with
    | '-' :: r => (-1, r)
    | '+' :: r => (1, r)
    | r => (1, r)
  let intDigits := signed.2.takeWhile Char.isDigit
  let rest := signed.2.dropWhile Char.isDigit
  let fracDigits :=
    match rest with
    | '.' :: r => r.takeWhile Char.isDigit
    | _ => []
  if intDigits.isEmpty ∧ fracDigits.isEmpty then none
  else
    some (signed.1 *
      ((digitsToNat intDigits : ℚ) + (digitsToNat fracDigits : ℚ) / (10 : ℚ) ^ fracDigits.length))

/-- A generic list operation run (`query`, src/unnamed/part_004 lines 88-101):
authenticate via the interceptor, send the query string, and extract the
entity-kind-named array from the response envelope, defaulting to `[]` when
absent (`data[entityType] || []`); `http` is the remote's answer as a
function of the query string sent. -/
def queryRun {α : Type} (s : ClientState) (now : Int) (exch : Except String TokenResponse)
    (sql : String) (http : String → Except String (Option (List α))) :
    Except String (List α) × ClientState :=
  withAuth s now exch fun _ => (http sql).map fun r => r.getD []

/-- `queryCustomers` with its network effects explicit. -/
def queryCustomersRun (s : ClientState) (now : Int) (exch : Except String TokenResponse)
    (o : CustomerQueryOptions) (http : String → Except String (Option (List QBCustomer))) :
    Except String (List QBCustomer) × ClientState :=
  queryRun s now exch (customersQuerySql o) http

/-- `queryInvoices` with its network effects explicit. -/
def queryInvoicesRun (s : ClientState) (now : Int) (exch : Except String TokenResponse)
    (o : InvoiceQueryOptions) (http : String → Except String (Option (List QBInvoice))) :
    Except String (List QBInvoice) × ClientState :=
  queryRun s now exch (invoicesQuerySql o) http

/-- `queryAccounts` with its network effects explicit. -/
def queryAccountsRun (s : ClientState) (now : Int) (exch : Except String TokenResponse)
    (o : AccountQueryOptions) (http : String → Except String (Option (List QBAccount))) :
    Except String (List QBAccount) × ClientState :=
  queryRun s now exch (accountsQuerySql o) http

/-- `queryVendors` with its network effects explicit. -/
def queryVendorsRun (s : ClientState) (now : Int) (exch : Except String TokenResponse)
    (o : VendorQueryOptions) (http : String → Except String (Option (List QBVendor))) :
    Except String (List QBVendor) × ClientState :=
  queryRun s now exch (vendorsQuerySql o) http

/-- `queryBills` with its network effects explicit. -/
def queryBillsRun (s : ClientState) (now : Int) (exch : Except String TokenResponse)
    (o : BillQueryOptions) (http : String → Except String (Option (List QBBill))) :
    Except String (List QBBill) × ClientState :=
  queryRun s now exch (billsQuerySql o) http

/-- `getCustomer` (src/unnamed/part_004 lines 129-136): GET
`/customer/<id>` inside a `try`; every failure of the authenticated request
— token refresh failure included — is caught and collapsed to `null`. The
token-state mutation performed by the interceptor persists either way. -/
def getCustomerRun (s : ClientState) (now : Int) (exch : Except String TokenResponse)
    (cid : String) (http : String → Except String QBCustomer) :
    Option QBCustomer × ClientState :=
  match withAuth s now exch fun _ => http ("/customer/" ++ cid) with
  | (Except.ok c, s₁) => (some c, s₁)
  | (Except.error _, s₁) => (none, s₁)

/-- `createInvoice` (src/unnamed/part_004 lines 176-200) with its network
effects explicit: POST the built body; failures propagate. -/
def createInvoiceRun (s : ClientState) (now : Int) (exch : Except String TokenResponse)
    (d : InvoiceCreateData) (http : InvoiceBody → Except String QBInvoice) :
    Except String QBInvoice × ClientState :=
  withAuth s now exch fun _ => http (createInvoiceBody d)

/-- `getProfitAndLossReport` (src/unnamed/part_004 lines 274-304) with its
network effects explicit: GET the raw report, then parse it; failures
propagate, parsing itself never fails. -/
def getProfitAndLossRun (s : ClientState) (now : Int) (exch : Except String TokenResponse)
    (startDate endDate : String) (pf : String → Option ℚ)
    (http : String × String → Except String RawReport) :
    Except String ProfitLossReport × ClientState :=
  withAuth s now exch fun _ => (http (startDate, endDate)).map (parseProfitAndLoss pf)

/-- Frame predicate for C9: after an operation ran with token-exchange
outcome `exch`, the config `c₁` coincides with the original `c` on
`clientId`, `clientSecret`, `companyId` and `environment`, and its
`refreshToken` either is unchanged or is the non-empty rotated token of a
successful exchange response. -/
def ConfigFrameOk (exch : Except String TokenResponse) (c c₁ : QBConfig) : Prop :=
  c₁.clientId = c.clientId ∧ c₁.clientSecret = c.clientSecret ∧
  c₁.companyId = c.companyId ∧ c₁.environment = c.environment ∧
  (c₁.refreshToken = c.refreshToken ∨
    ∃ resp, exch = Except.ok resp ∧ resp.refresh_token ≠ "" ∧
      c₁.refreshToken = resp.refresh_token)

/-- Example raw report for the C7 witness: an "Income" group row whose
summary second column is "10000.00", and no "COGS" row at all. -/
def exampleReport : RawReport :=
  ⟨some ⟨some
    [ { group := some "Income",
        Summary := some ⟨some [⟨some "Total Income"⟩, ⟨some "10000.00"⟩]⟩ },
      { type := some "GrossProfit",
        Summary := some ⟨some [⟨some "Gross Profit"⟩, ⟨some "8000.00"⟩]⟩ } ]⟩⟩

/-! ## Helper lemmas -/

/-- `jsOrDefault` on a present non-zero value returns the value. -/
theorem jsOrDefault_some_ne (n d : Int) (h : n ≠ 0) : jsOrDefault (some n) d = n := by
  simp [jsOrDefault, h]

/-- `jsOrDefault` with default `0` returns the present value even when it is
zero. -/
theorem jsOrDefault_some_zero (n : Int) : jsOrDefault (some n) 0 = n := by
  by_cases h : n = 0 <;> simp [jsOrDefault, h]

/-- `querySql` applied to a joined condition list decomposes into the base,
the where-text of the conditions, and the pagination tail. -/
theorem querySql_whereText (e : String) (cs : List String) (l o : Int) :
    querySql e (joinConds cs) l o =
      "SELECT * FROM " ++ e ++ whereText cs ++ " STARTPOSITION " ++ toString (o + 1) ++
        " MAXRESULTS " ++ toString l := by
  unfold querySql joinConds whereText
  by_cases h : cs.isEmpty
  · simp [h]
  · simp [h, String.append_assoc]

/-! ## Claims -/

/-- C2: in `queryInvoices`, status "open" contributes exactly the predicate
`Balance > '0'`, "paid" contributes exactly `Balance = '0'`, and "overdue"
(like "all", or no status) contributes no predicate; the conditions are the
customer-reference predicate, then the status predicate, then the date
predicates; and the call
`queryInvoices({customerId: "123", status: "open", limit: 10, offset: 0})`
issues exactly
`SELECT * FROM Invoice WHERE CustomerRef = '123' AND Balance > '0'
STARTPOSITION 1 MAXRESULTS 10`. -/
theorem c2_invoice_status_predicates :
    statusConds (some "open") = ["Balance > \x270\x27"] ∧
    statusConds (some "paid") = ["Balance = \x270\x27"] ∧
    statusConds (some "overdue") = [] ∧
    statusConds (some "all") = [] ∧
    statusConds none = [] ∧
    (∀ o : InvoiceQueryOptions,
      invoicesConditions o =
        optStrCond "CustomerRef = \x27" "\x27" o.customerId ++ statusConds o.status ++
          optStrCond "TxnDate >= \x27" "\x27" o.startDate ++
          optStrCond "TxnDate <= \x27" "\x27" o.endDate) ∧
    invoicesQuerySql
        { customerId := some "123", status := some "open",
          limit := some 10, offset := some 0 } =
      "SELECT * FROM Invoice WHERE CustomerRef = \x27123\x27 AND Balance > \x270\x27 STARTPOSITION 1 MAXRESULTS 10" :=
  ⟨rfl, rfl, rfl, rfl, rfl, fun _ => rfl, by decide⟩

/-- C3 counterexample: with limit and offset unset, `queryAccounts` generates
`... STARTPOSITION 1 MAXRESULTS 1000` — its limit default is
`options.limit || 1000`, not 100, so the defaults are not uniform across
entity kinds and the accounts query does not end in the claimed
`MAXRESULTS 100` pagination clause. -/
theorem c3_counterexample :
    accountsQuerySql {} =
      "SELECT * FROM Account WHERE Active = true STARTPOSITION 1 MAXRESULTS 1000" ∧
    accountsQuerySql {} ≠
      "SELECT * FROM Account WHERE Active = true STARTPOSITION 1 MAXRESULTS 100" ∧
    jsOrDefault (none : Option Int) 1000 = 1000 := by
  refine ⟨by decide, by decide, rfl⟩

/-- C3 (amended): with limit and offset unset, the customer, invoice, vendor
and bill list operations generate `STARTPOSITION 1 MAXRESULTS 100` (limit
defaults to 100, offset to 0), while the account list operation generates
`STARTPOSITION 1 MAXRESULTS 1000` (limit defaults to 1000, offset to 0). -/
theorem c3_default_pagination :
    (∀ (ao : Option Bool) (se : Option String),
      customersQuerySql { activeOnly := ao, search := se } =
        querySql "Customer"
          (joinConds (customersConditions { activeOnly := ao, search := se })) 100 0) ∧
    (∀ cid st sd ed : Option String,
      invoicesQuerySql { customerId := cid, status := st, startDate := sd, endDate := ed } =
        querySql "Invoice"
          (joinConds (invoicesConditions
            { customerId := cid, status := st, startDate := sd, endDate := ed })) 100 0) ∧
    (∀ ao : Option Bool,
      vendorsQuerySql { activeOnly := ao } =
        querySql "Vendor" (joinConds (vendorsConditions { activeOnly := ao })) 100 0) ∧
    (∀ vid st : Option String,
      billsQuerySql { vendorId := vid, status := st } =
        querySql "Bill" (joinConds (billsConditions { vendorId := vid, status := st })) 100 0) ∧
    (∀ at₁ : Option String,
      accountsQuerySql { accountType := at₁ } =
        querySql "Account"
          (some (String.intercalate " AND " (accountsConditions { accountType := at₁ })))
          1000 0) ∧
    customersQuerySql {} =
      "SELECT * FROM Customer WHERE Active = true STARTPOSITION 1 MAXRESULTS 100" ∧
    invoicesQuerySql {} = "SELECT * FROM Invoice STARTPOSITION 1 MAXRESULTS 100" ∧
    vendorsQuerySql {} =
      "SELECT * FROM Vendor WHERE Active = true STARTPOSITION 1 MAXRESULTS 100" ∧
    billsQuerySql {} = "SELECT * FROM Bill STARTPOSITION 1 MAXRESULTS 100" ∧
    accountsQuerySql {} =
      "SELECT * FROM Account WHERE Active = true STARTPOSITION 1 MAXRESULTS 1000" :=
  ⟨fun _ _ => rfl, fun _ _ _ _ => rfl, fun _ => rfl, fun _ _ => rfl, fun _ => rfl,
    by decide, by decide, by decide, by decide, by decide⟩

/-- C4 counterexample: calling `queryCustomers` with limit explicitly set to
0 (and offset 5) generates `MAXRESULTS 100`, not `MAXRESULTS 0`, because
`options.limit || 100` treats the explicit 0 as unset. -/
theorem c4_counterexample :
    customersQuerySql { limit := some 0, offset := some 5 } =
      "SELECT * FROM Customer WHERE Active = true STARTPOSITION 6 MAXRESULTS 100" ∧
    customersQuerySql { limit := some 0, offset := some 5 } ≠
      "SELECT * FROM Customer WHERE Active = true STARTPOSITION 6 MAXRESULTS 0" ∧
    jsOrDefault (some 0) 100 = 100 := by
  refine ⟨by decide, by decide, rfl⟩

/-- C4 (amended): for every entity list operation called with limit `L ≠ 0`
and offset `O` set, the generated query string is `SELECT * FROM <Entity>`,
followed by ` WHERE ` and the conditions joined with ` AND ` when at least
one condition exists (and no WHERE clause when none do), followed by
` STARTPOSITION <O+1> MAXRESULTS <L>`. -/
theorem c4_query_shape (L O : Int) (hL : L ≠ 0) :
    (∀ o : CustomerQueryOptions,
      customersQuerySql { o with limit := some L, offset := some O } =
        "SELECT * FROM " ++ "Customer" ++ whereText (customersConditions o) ++
          " STARTPOSITION " ++ toString (O + 1) ++ " MAXRESULTS " ++ toString L) ∧
    (∀ o : InvoiceQueryOptions,
      invoicesQuerySql { o with limit := some L, offset := some O } =
        "SELECT * FROM " ++ "Invoice" ++ whereText (invoicesConditions o) ++
          " STARTPOSITION " ++ toString (O + 1) ++ " MAXRESULTS " ++ toString L) ∧
    (∀ o : VendorQueryOptions,
      vendorsQuerySql { o with limit := some L, offset := some O } =
        "SELECT * FROM " ++ "Vendor" ++ whereText (vendorsConditions o) ++
          " STARTPOSITION " ++ toString (O + 1) ++ " MAXRESULTS " ++ toString L) ∧
    (∀ o : BillQueryOptions,
      billsQuerySql { o with limit := some L, offset := some O } =
        "SELECT * FROM " ++ "Bill" ++ whereText (billsConditions o) ++
          " STARTPOSITION " ++ toString (O + 1) ++ " MAXRESULTS " ++ toString L) ∧
    (∀ o : AccountQueryOptions,
      accountsQuerySql { o with limit := some L, offset := some O } =
        "SELECT * FROM " ++ "Account" ++ whereText (accountsConditions o) ++
          " STARTPOSITION " ++ toString (O + 1) ++ " MAXRESULTS " ++ toString L) := by
  refine ⟨fun o => ?_, fun o => ?_, fun o => ?_, fun o => ?_, fun o => ?_⟩
  · show querySql "Customer" (joinConds (customersConditions o))
      (jsOrDefault (some L) 100) (jsOrDefault (some O) 0) = _
    rw [jsOrDefault_some_ne L 100 hL, jsOrDefault_some_zero O, querySql_whereText]
  · show querySql "Invoice" (joinConds (invoicesConditions o))
      (jsOrDefault (some L) 100) (jsOrDefault (some O) 0) = _
    rw [jsOrDefault_some_ne L 100 hL, jsOrDefault_some_zero O, querySql_whereText]
  · show querySql "Vendor" (joinConds (vendorsConditions o))
      (jsOrDefault (some L) 100) (jsOrDefault (some O) 0) = _
    rw [jsOrDefault_some_ne L 100 hL, jsOrDefault_some_zero O, querySql_whereText]
  · show querySql "Bill" (joinConds (billsConditions o))
      (jsOrDefault (some L) 100) (jsOrDefault (some O) 0) = _
    rw [jsOrDefault_some_ne L 100 hL, jsOrDefault_some_zero O, querySql_whereText]
  · show querySql "Account" (joinConds (accountsConditions o))
      (jsOrDefault (some L) 1000) (jsOrDefault (some O) 0) = _
    rw [jsOrDefault_some_ne L 1000 hL, jsOrDefault_some_zero O, querySql_whereText]

/-- C4 witness: the amended shape at `L = 10`, `O = 0` on a customer query
with default filters. -/
theorem c4_witness :
    customersQuerySql { limit := some 10, offset := some 0 } =
      "SELECT * FROM " ++ "Customer" ++
        whereText (customersConditions {}) ++
        " STARTPOSITION " ++ toString ((0 : Int) + 1) ++ " MAXRESULTS " ++ toString (10 : Int) ∧
    customersQuerySql { limit := some 10, offset := some 0 } =
      "SELECT * FROM Customer WHERE Active = true STARTPOSITION 1 MAXRESULTS 10" :=
  ⟨(c4_query_shape 10 0 (by decide)).1 {}, by decide⟩

/-- C5: in `queryCustomers` and `queryVendors`, the condition list is exactly
the predicate `Active = true` when `activeOnly` is not explicitly false
(omitted when it is false), plus — for `queryCustomers` with a present
non-empty search term `T` — exactly `DisplayName LIKE '%T%'` with `T`
interpolated byte-for-byte and no escaping, including when `T` contains a
single quote. -/
theorem c5_active_and_search_conditions :
    (∀ o : CustomerQueryOptions, o.activeOnly = some false →
      customersConditions o = searchConds o.search) ∧
    (∀ o : CustomerQueryOptions, o.activeOnly ≠ some false →
      customersConditions o = "Active = true" :: searchConds o.search) ∧
    (∀ T : String, T ≠ "" → searchConds (some T) = ["DisplayName LIKE \x27%" ++ T ++ "%\x27"]) ∧
    searchConds none = [] ∧
    searchConds (some "") = [] ∧
    (∀ o : VendorQueryOptions, o.activeOnly = some false → vendorsConditions o = []) ∧
    (∀ o : VendorQueryOptions, o.activeOnly ≠ some false →
      vendorsConditions o = ["Active = true"]) ∧
    customersConditions { activeOnly := some false, search := some "O\x27Brien" } =
      ["DisplayName LIKE \x27%O\x27Brien%\x27"] := by
  refine ⟨fun o h => ?_, fun o h => ?_, fun T h => ?_, rfl, by decide,
    fun o h => ?_, fun o h => ?_, by decide⟩
  · unfold customersConditions activeCond
    rw [h]
    simp
  · unfold customersConditions activeCond
    rw [if_pos h]
    rfl
  · show (if T ≠ "" then ["DisplayName LIKE \x27%" ++ T ++ "%\x27"] else []) =
      ["DisplayName LIKE \x27%" ++ T ++ "%\x27"]
    exact if_pos h
  · unfold vendorsConditions activeCond
    rw [h]
    simp
  · unfold vendorsConditions activeCond
    rw [if_pos h]

/-- C5 witness: with `activeOnly = true` and the quote-containing search term
"O'Brien", the conditions are `Active = true` followed by the unescaped
`DisplayName LIKE '%O'Brien%'`. -/
theorem c5_witness :
    customersConditions { activeOnly := some true, search := some "O\x27Brien" } =
      ["Active = true", "DisplayName LIKE \x27%O\x27Brien%\x27"] := by
  have h := c5_active_and_search_conditions
  rw [h.2.1 _ (by decide), h.2.2.1 "O\x27Brien" (by decide)]
  rfl

/-- C6 counterexample: a line item with amount 150 and an explicit quantity
of 0 produces a sales line with `Amount = 150` and `Qty = 1` (the code
evaluates `item.quantity || 1`), not the `Amount = 150 × 0 = 0` and
`Qty = 0` the claim's universal mapping demands. -/
theorem c6_counterexample :
    (mkInvoiceLine 0 ⟨"Widget", 150, some 0⟩).Amount = 150 ∧
    (mkInvoiceLine 0 ⟨"Widget", 150, some 0⟩).SalesItemLineDetail.Qty = 1 ∧
    (mkInvoiceLine 0 ⟨"Widget", 150, some 0⟩).Amount ≠ 150 * 0 ∧
    createInvoiceLines [⟨"Widget", 150, some 0⟩] = [mkInvoiceLine 0 ⟨"Widget", 150, some 0⟩] := by
  have hA : (mkInvoiceLine 0 ⟨"Widget", 150, some 0⟩).Amount = 150 := by
    show (150 : ℚ) * jsOrQ (some 0) 1 = 150
    norm_num [jsOrQ]
  have hQ : (mkInvoiceLine 0 ⟨"Widget", 150, some 0⟩).SalesItemLineDetail.Qty = 1 := by
    show jsOrQ (some 0) 1 = 1
    norm_num [jsOrQ]
  refine ⟨hA, hQ, ?_, rfl⟩
  rw [hA]
  norm_num

/-- C6 (amended): every `createInvoice` line item whose quantity is not an
explicit 0 is mapped to the sales line at the same position with
`Id = String(idx+1)`, `Amount = amount × quantity`, `DetailType =
"SalesItemLineDetail"`, `Qty = quantity` and `UnitPrice = amount`, where an
absent quantity counts as 1 (so no quantity yields `Amount = amount`). -/
theorem c6_line_mapping (items : List LineItemInput) (idx : Nat) (item : LineItemInput)
    (hidx : items[idx]? = some item) (hq : item.quantity ≠ some 0) :
    (createInvoiceLines items)[idx]? = some (mkInvoiceLine idx item) ∧
    (mkInvoiceLine idx item).Amount = item.amount * item.quantity.getD 1 ∧
    (mkInvoiceLine idx item).DetailType = "SalesItemLineDetail" ∧
    (mkInvoiceLine idx item).SalesItemLineDetail.Qty = item.quantity.getD 1 ∧
    (mkInvoiceLine idx item).SalesItemLineDetail.UnitPrice = item.amount ∧
    (mkInvoiceLine idx item).Id = toString (idx + 1) ∧
    (item.quantity = none → (mkInvoiceLine idx item).Amount = item.amount) := by
  have hjs : jsOrQ item.quantity 1 = item.quantity.getD 1 := by
    cases hcase : item.quantity with
    | none => rfl
    | some q =>
      have hq0 : q ≠ 0 := fun h0 => hq (by rw [hcase, h0])
      simp [jsOrQ, hq0]
  refine ⟨?_, ?_, rfl, ?_, rfl, rfl, ?_⟩
  · unfold createInvoiceLines
    rw [List.getElem?_map, List.getElem?_enum, hidx]
    rfl
  · show item.amount * jsOrQ item.quantity 1 = item.amount * item.quantity.getD 1
    rw [hjs]
  · show jsOrQ item.quantity 1 = item.quantity.getD 1
    exact hjs
  · intro hnone
    show item.amount * jsOrQ item.quantity 1 = item.amount
    rw [hnone]
    show item.amount * 1 = item.amount
    exact mul_one item.amount

/-- C6 witness: the mapping at the claim's example — amount 150, quantity 2 —
yields a line amount of 300. -/
theorem c6_witness :
    (createInvoiceLines [⟨"Consulting", 150, some 2⟩])[0]? =
      some (mkInvoiceLine 0 ⟨"Consulting", 150, some 2⟩) ∧
    (mkInvoiceLine 0 ⟨"Consulting", 150, some 2⟩).Amount = 300 := by
  have h := c6_line_mapping [⟨"Consulting", 150, some 2⟩] 0 ⟨"Consulting", 150, some 2⟩
    rfl (by decide)
  refine ⟨h.1, ?_⟩
  rw [h.2.1]
  norm_num

/-- C10: a `createInvoice` line item with an explicit quantity of 0 produces
a sales line with `Qty = 1` and `Amount = amount × 1` — identical to the line
produced for an absent quantity, not a zero-amount line. -/
theorem c10_zero_quantity (idx : Nat) (item : LineItemInput) (h : item.quantity = some 0) :
    (mkInvoiceLine idx item).SalesItemLineDetail.Qty = 1 ∧
    (mkInvoiceLine idx item).Amount = item.amount * 1 ∧
    mkInvoiceLine idx item = mkInvoiceLine idx { item with quantity := none } ∧
    (∀ items : List LineItemInput, items[idx]? = some item →
      (createInvoiceLines items)[idx]? = some (mkInvoiceLine idx item)) := by
  have hjs : jsOrQ item.quantity 1 = 1 := by
    rw [h]
    simp [jsOrQ]
  refine ⟨hjs, ?_, ?_, ?_⟩
  · show item.amount * jsOrQ item.quantity 1 = item.amount * 1
    rw [hjs]
  · unfold mkInvoiceLine
    rw [hjs]
    rfl
  · intro items hidx
    unfold createInvoiceLines
    rw [List.getElem?_map, List.getElem?_enum, hidx]
    rfl

/-- C10 witness: the zero-quantity line at amount 150 gets `Qty = 1` and is
equal to the no-quantity line. -/
theorem c10_witness :
    (mkInvoiceLine 0 ⟨"Widget", 150, some 0⟩).SalesItemLineDetail.Qty = 1 ∧
    mkInvoiceLine 0 ⟨"Widget", 150, some 0⟩ = mkInvoiceLine 0 ⟨"Widget", 150, none⟩ := by
  have h := c10_zero_quantity 0 ⟨"Widget", 150, some 0⟩ rfl
  exact ⟨h.1, h.2.2.1⟩

/-- C1 counterexample: the refresh response
`{access_token: "", refresh_token: "", expires_in: 3600}` on an expired
client (claimed: store "" , overwrite the stored refresh token with the
present "" , and serve every pre-expiry call from the cache) actually leaves
the stored refresh token at its old value, and the very next call — made at
time 2000, strictly before the stored expiry — performs a fresh refresh
exchange (it returns that second exchange's token "tok2", not the cached
access token), because `this.accessToken && ...` is false for the cached
empty string. -/
theorem c1_counterexample :
    (getAccessToken ⟨⟨"cid", "sec", "old", "co", "production"⟩, "", 0⟩ 1000
        (Except.ok ⟨"", "", 3600⟩)).2.config.refreshToken = "old" ∧
    (2000 : Int) <
      (getAccessToken ⟨⟨"cid", "sec", "old", "co", "production"⟩, "", 0⟩ 1000
        (Except.ok ⟨"", "", 3600⟩)).2.tokenExpiry ∧
    (getAccessToken
        (getAccessToken ⟨⟨"cid", "sec", "old", "co", "production"⟩, "", 0⟩ 1000
          (Except.ok ⟨"", "", 3600⟩)).2
        2000 (Except.ok ⟨"tok2", "rt2", 7200⟩)).1 = Except.ok "tok2" := by
  refine ⟨by decide, by decide, rfl⟩

/-- C1 (amended): a token refresh exchange performed on a cache miss whose
response is `{access_token: a, refresh_token: r, expires_in: e}` stores `a`
as the cached access token with expiry instant `now + (e - 60)` seconds,
overwrites the stored refresh token with `r` exactly when `r` is non-empty,
and returns `a`; provided `a` is non-empty, every subsequent call made while
the current time is strictly before the stored expiry returns the cached
token without performing another refresh exchange. -/
theorem c1_refresh_caching (s : ClientState) (now : Int) (resp : TokenResponse)
    (hmiss : s.accessToken = "" ∨ s.tokenExpiry ≤ now)
    (ha : resp.access_token ≠ "") :
    ∃ s₁, getAccessToken s now (Except.ok resp) = (Except.ok resp.access_token, s₁) ∧
      s₁.accessToken = resp.access_token ∧
      s₁.tokenExpiry = now + (resp.expires_in - 60) * 1000 ∧
      s₁.config.refreshToken =
        (if resp.refresh_token ≠ "" then resp.refresh_token else s.config.refreshToken) ∧
      s₁.config.clientId = s.config.clientId ∧
      ∀ (now₂ : Int) (exch₂ : Except String TokenResponse), now₂ < s₁.tokenExpiry →
        getAccessToken s₁ now₂ exch₂ = (Except.ok resp.access_token, s₁) := by
  have hcond : ¬(s.accessToken ≠ "" ∧ s.tokenExpiry > now) := by
    rcases hmiss with h | h
    · exact fun hc => hc.1 h
    · exact fun hc => absurd hc.2 (not_lt.mpr h)
  refine ⟨{ config :=
              if resp.refresh_token ≠ "" then
                { s.config with refreshToken := resp.refresh_token }
              else s.config
            accessToken := resp.access_token
            tokenExpiry := now + (resp.expires_in - 60) * 1000 }, ?_, rfl, rfl, ?_, ?_, ?_⟩
  · unfold getAccessToken
    rw [if_neg hcond]
  · by_cases hrt : resp.refresh_token ≠ "" <;> simp [hrt]
  · by_cases hrt : resp.refresh_token ≠ "" <;> simp [hrt]
  · intro now₂ exch₂ hlt
    unfold getAccessToken
    rw [if_pos ⟨ha, hlt⟩]

/-- C1 witness: the spec's end-to-end scenario — the exchange returns
`{access_token: "abc", refresh_token: "xyz", expires_in: 3600}` on an
initial (empty-cache) state. -/
theorem c1_witness :
    ∃ s₁, getAccessToken ⟨⟨"cid", "sec", "old", "co", "production"⟩, "", 0⟩ 1000
        (Except.ok ⟨"abc", "xyz", 3600⟩) = (Except.ok "abc", s₁) ∧
      s₁.accessToken = "abc" ∧
      s₁.tokenExpiry = 1000 + (3600 - 60) * 1000 ∧
      s₁.config.refreshToken = (if ("xyz" : String) ≠ "" then "xyz" else "old") ∧
      s₁.config.clientId = "cid" ∧
      ∀ (now₂ : Int) (exch₂ : Except String TokenResponse), now₂ < s₁.tokenExpiry →
        getAccessToken s₁ now₂ exch₂ = (Except.ok "abc", s₁) :=
  c1_refresh_caching ⟨⟨"cid", "sec", "old", "co", "production"⟩, "", 0⟩ 1000
    ⟨"abc", "xyz", 3600⟩ (Or.inl rfl) (by decide)

/-- When a matching row was found, `parseAmount` is determined by that row's
optional-chained summary value: absent or empty gives 0, otherwise the
parsed value with 0 for an unparsable (`NaN`) result. -/
theorem parseAmount_found (pf : String → Option ℚ) (rs : List ReportRow) (t : String)
    (row : ReportRow) (hfind : rs.find? (rowMatches t) = some row) :
    parseAmount pf (some rs) t =
      (match rowSummaryValue row with
       | none => 0
       | some v => if v = "" then 0 else (pf v).getD 0) := by
  simp only [parseAmount, rowSummaryValue]
  rw [hfind]
  cases hsm : row.Summary with
  | none => simp [hsm]
  | some sobj =>
    cases hcd : sobj.ColData with
    | none => simp [hsm, hcd]
    | some cds =>
      cases h1 : cds[1]? with
      | none => simp [hsm, hcd, h1]
      | some c1 =>
        cases hv : c1.value with
        | none => simp [hsm, hcd, h1, hv]
        | some v => simp [hsm, hcd, h1, hv]

/-- C7: `parseProfitAndLoss` computes each of the five target fields by
`parseAmount` over the report rows with discriminators "Income", "COGS",
"GrossProfit", "Expenses" and "NetIncome"; `parseAmount` returns the parsed
numeric value of the second summary column (index 1) of the first row whose
`type` or `group` equals the discriminator, and returns 0 — it is total, so
it never throws — whenever the rows are absent, no row matches, any link of
the `Summary.ColData[1].value` chain is absent, the value is empty, or the
parse fails (`pf` returning `none` models a `NaN` result of `parseFloat`,
and `parseFloat(v) || 0` is `(pf v).getD 0`). -/
theorem c7_report_parsing (pf : String → Option ℚ) (rep : RawReport) :
    ((parseProfitAndLoss pf rep).totalIncome = parseAmount pf (some (reportRows rep)) "Income" ∧
     (parseProfitAndLoss pf rep).totalCOGS = parseAmount pf (some (reportRows rep)) "COGS" ∧
     (parseProfitAndLoss pf rep).grossProfit =
       parseAmount pf (some (reportRows rep)) "GrossProfit" ∧
     (parseProfitAndLoss pf rep).totalExpenses =
       parseAmount pf (some (reportRows rep)) "Expenses" ∧
     (parseProfitAndLoss pf rep).netIncome = parseAmount pf (some (reportRows rep)) "NetIncome") ∧
    (∀ t, parseAmount pf none t = 0) ∧
    (∀ (rs : List ReportRow) (t : String), rs.find? (rowMatches t) = none →
      parseAmount pf (some rs) t = 0) ∧
    (∀ (rs : List ReportRow) (t : String) (row : ReportRow),
      rs.find? (rowMatches t) = some row → rowSummaryValue row = none →
      parseAmount pf (some rs) t = 0) ∧
    (∀ (rs : List ReportRow) (t : String) (row : ReportRow),
      rs.find? (rowMatches t) = some row → rowSummaryValue row = some "" →
      parseAmount pf (some rs) t = 0) ∧
    (∀ (rs : List ReportRow) (t : String) (row : ReportRow) (v : String),
      rs.find? (rowMatches t) = some row → rowSummaryValue row = some v → v ≠ "" →
      parseAmount pf (some rs) t = (pf v).getD 0) := by
  refine ⟨⟨rfl, rfl, rfl, rfl, rfl⟩, fun t => rfl, fun rs t h => ?_, fun rs t row hf hv => ?_,
    fun rs t row hf hv => ?_, fun rs t row v hf hv hne => ?_⟩
  · simp only [parseAmount]
    rw [h]
  · rw [parseAmount_found pf rs t row hf, hv]
  · rw [parseAmount_found pf rs t row hf, hv]
    simp
  · rw [parseAmount_found pf rs t row hf, hv]
    simp [hne]

/-- C7 witness: on a raw report whose "Income" group summary second column is
"10000.00" and which has no "COGS" row, the parse yields
`totalIncome = 10000` and `totalCOGS = 0`. -/
theorem c7_witness :
    (parseProfitAndLoss jsParseFloat exampleReport).totalIncome = 10000 ∧
    (parseProfitAndLoss jsParseFloat exampleReport).totalCOGS = 0 := by
  have h := c7_report_parsing jsParseFloat exampleReport
  constructor
  · rw [h.1.1,
      h.2.2.2.2.2 (reportRows exampleReport) "Income"
        { group := some "Income",
          Summary := some ⟨some [⟨some "Total Income"⟩, ⟨some "10000.00"⟩]⟩ }
        "10000.00" (by decide) (by decide) (by decide)]
    have hparse : jsParseFloat "10000.00" =
        some ((1 : ℚ) * (((10000 : ℕ) : ℚ) + ((0 : ℕ) : ℚ) / (10 : ℚ) ^ 2)) := rfl
    rw [hparse]
    show (1 : ℚ) * (((10000 : ℕ) : ℚ) + ((0 : ℕ) : ℚ) / (10 : ℚ) ^ 2) = 10000
    push_cast
    norm_num
  · rw [h.1.2.1, h.2.2.1 (reportRows exampleReport) "COGS" (by decide)]

/-- `getAccessToken` after an operation leaves `clientId`, `clientSecret`,
`companyId` and `environment` unchanged, and changes `refreshToken` only to
the non-empty rotated token of a successful exchange. -/
theorem frame_getAccessToken (s : ClientState) (now : Int) (exch : Except String TokenResponse) :
    ConfigFrameOk exch s.config (getAccessToken s now exch).2.config := by
  unfold ConfigFrameOk
  by_cases hc : s.accessToken ≠ "" ∧ s.tokenExpiry > now
  · have h : (getAccessToken s now exch).2 = s := by
      unfold getAccessToken
      rw [if_pos hc]
    rw [h]
    exact ⟨rfl, rfl, rfl, rfl, Or.inl rfl⟩
  · cases exch with
    | error e =>
      have h : (getAccessToken s now (Except.error e)).2 = s := by
        unfold getAccessToken
        rw [if_neg hc]
      rw [h]
      exact ⟨rfl, rfl, rfl, rfl, Or.inl rfl⟩
    | ok resp =>
      by_cases hrt : resp.refresh_token = ""
      · have h : (getAccessToken s now (Except.ok resp)).2.config = s.config := by
          unfold getAccessToken
          rw [if_neg hc]
          simp [hrt]
        rw [h]
        exact ⟨rfl, rfl, rfl, rfl, Or.inl rfl⟩
      · have h : (getAccessToken s now (Except.ok resp)).2.config =
            { s.config with refreshToken := resp.refresh_token } := by
          unfold getAccessToken
          rw [if_neg hc]
          simp [hrt]
        rw [h]
        exact ⟨rfl, rfl, rfl, rfl, Or.inr ⟨resp, rfl, hrt, rfl⟩⟩

/-- The state after `withAuth` is exactly the state after the interceptor's
`getAccessToken`, whatever the request itself did. -/
theorem withAuth_state {α : Type} (s : ClientState) (now : Int)
    (exch : Except String TokenResponse) (call : String → Except String α) :
    (withAuth s now exch call).2 = (getAccessToken s now exch).2 := by
  unfold withAuth
  rcases h : getAccessToken s now exch with ⟨r, s₁⟩
  cases r <;> simp [h]

/-- A `withAuth` request whose call fails produces an error result. -/
theorem withAuth_error_result {α : Type} (s : ClientState) (now : Int)
    (exch : Except String TokenResponse) (f : String → Except String α)
    (hf : ∀ tok, ∃ msg, f tok = Except.error msg) :
    ∃ msg, (withAuth s now exch f).1 = Except.error msg := by
  unfold withAuth
  rcases h : getAccessToken s now exch with ⟨r, s₁⟩
  cases r with
  | error er => exact ⟨er, rfl⟩
  | ok tok =>
    rcases hf tok with ⟨msg, hm⟩
    exact ⟨msg, hm⟩

/-- On a cache miss, a failed token exchange propagates its error and leaves
the state unchanged. -/
theorem getAccessToken_miss_error (s : ClientState) (now : Int) (e : String)
    (hmiss : s.accessToken = "" ∨ s.tokenExpiry ≤ now) :
    getAccessToken s now (Except.error e) = (Except.error e, s) := by
  have hcond : ¬(s.accessToken ≠ "" ∧ s.tokenExpiry > now) := by
    rcases hmiss with h | h
    · exact fun hc => hc.1 h
    · exact fun hc => absurd hc.2 (not_lt.mpr h)
  unfold getAccessToken
  rw [if_neg hcond]

/-- C8: `getCustomer` returns `null` — never an error — whenever the remote
request fails for any reason (failing HTTP call with an arbitrary error, or
a failed token refresh on a cache miss), while every other client operation
(the five list queries, invoice creation, the P&L report, and the token
refresh itself) propagates its failure to the caller as an error rather than
suppressing it. -/
theorem c8_error_policy (s : ClientState) (now : Int) (exch : Except String TokenResponse)
    (e : String) :
    (∀ (cid : String) (hfail : String → Except String QBCustomer),
      (∀ p, ∃ msg, hfail p = Except.error msg) →
      (getCustomerRun s now exch cid hfail).1 = none) ∧
    (∀ (cid : String) (http : String → Except String QBCustomer),
      s.accessToken = "" ∨ s.tokenExpiry ≤ now →
      (getCustomerRun s now (Except.error e) cid http).1 = none) ∧
    (∀ o : CustomerQueryOptions,
      ∃ msg, (queryCustomersRun s now exch o fun _ => Except.error e).1 = Except.error msg) ∧
    (∀ o : InvoiceQueryOptions,
      ∃ msg, (queryInvoicesRun s now exch o fun _ => Except.error e).1 = Except.error msg) ∧
    (∀ o : AccountQueryOptions,
      ∃ msg, (queryAccountsRun s now exch o fun _ => Except.error e).1 = Except.error msg) ∧
    (∀ o : VendorQueryOptions,
      ∃ msg, (queryVendorsRun s now exch o fun _ => Except.error e).1 = Except.error msg) ∧
    (∀ o : BillQueryOptions,
      ∃ msg, (queryBillsRun s now exch o fun _ => Except.error e).1 = Except.error msg) ∧
    (∀ d : InvoiceCreateData,
      ∃ msg, (createInvoiceRun s now exch d fun _ => Except.error e).1 = Except.error msg) ∧
    (∀ (sd ed : String) (pf : String → Option ℚ),
      ∃ msg, (getProfitAndLossRun s now exch sd ed pf fun _ => Except.error e).1 =
        Except.error msg) ∧
    (s.accessToken = "" ∨ s.tokenExpiry ≤ now →
      (getAccessToken s now (Except.error e)).1 = Except.error e) := by
  refine ⟨fun cid hfail hf => ?_, fun cid http hmiss => ?_, fun o => ?_, fun o => ?_,
    fun o => ?_, fun o => ?_, fun o => ?_, fun d => ?_, fun sd ed pf => ?_, fun hmiss => ?_⟩
  · unfold getCustomerRun
    rcases withAuth_error_result s now exch (fun _ => hfail ("/customer/" ++ cid))
      (fun _ => hf _) with ⟨msg, hmsg⟩
    rcases hw : withAuth s now exch (fun _ => hfail ("/customer/" ++ cid)) with ⟨r, s₁⟩
    have hr : r = Except.error msg := by
      rw [hw] at hmsg
      exact hmsg
    rw [hr]
  · unfold getCustomerRun withAuth
    rw [getAccessToken_miss_error s now e hmiss]
  · exact withAuth_error_result s now exch _ (fun _ => ⟨e, rfl⟩)
  · exact withAuth_error_result s now exch _ (fun _ => ⟨e, rfl⟩)
  · exact withAuth_error_result s now exch _ (fun _ => ⟨e, rfl⟩)
  · exact withAuth_error_result s now exch _ (fun _ => ⟨e, rfl⟩)
  · exact withAuth_error_result s now exch _ (fun _ => ⟨e, rfl⟩)
  · exact withAuth_error_result s now exch _ (fun _ => ⟨e, rfl⟩)
  · exact withAuth_error_result s now exch _ (fun _ => ⟨e, rfl⟩)
  · rw [getAccessToken_miss_error s now e hmiss]

/-- C8 witness: a failing customer lookup yields `null`, and a failed
exchange on an initial state propagates its error from the token refresh. -/
theorem c8_witness :
    (getCustomerRun ⟨⟨"cid", "sec", "rt", "co", "production"⟩, "", 0⟩ 5
        (Except.ok ⟨"tok", "r2", 3600⟩) "42" fun _ => Except.error "boom").1 = none ∧
    (getAccessToken ⟨⟨"cid", "sec", "rt", "co", "production"⟩, "", 0⟩ 5
        (Except.error "down")).1 = Except.error "down" := by
  have h1 := c8_error_policy ⟨⟨"cid", "sec", "rt", "co", "production"⟩, "", 0⟩ 5
    (Except.ok ⟨"tok", "r2", 3600⟩) "boom"
  have h2 := c8_error_policy ⟨⟨"cid", "sec", "rt", "co", "production"⟩, "", 0⟩ 5
    (Except.error "down") "down"
  exact ⟨h1.1 "42" (fun _ => Except.error "boom") (fun _ => ⟨"boom", rfl⟩),
    h2.2.2.2.2.2.2.2.2.2 (Or.inl rfl)⟩

/-- C9: every operation of the client — the token refresh, the five list
queries, the customer lookup, invoice creation and the P&L report — leaves
`clientId`, `clientSecret`, `companyId` and `environment` of the stored
configuration unchanged, and the only configuration field any of them ever
changes is `refreshToken`, which changes only to the non-empty rotated
refresh token of a successful token exchange (`ConfigFrameOk`). -/
theorem c9_config_frame (s : ClientState) (now : Int) (exch : Except String TokenResponse) :
    ConfigFrameOk exch s.config (getAccessToken s now exch).2.config ∧
    (∀ (o : CustomerQueryOptions) (http : String → Except String (Option (List QBCustomer))),
      ConfigFrameOk exch s.config (queryCustomersRun s now exch o http).2.config) ∧
    (∀ (o : InvoiceQueryOptions) (http : String → Except String (Option (List QBInvoice))),
      ConfigFrameOk exch s.config (queryInvoicesRun s now exch o http).2.config) ∧
    (∀ (o : AccountQueryOptions) (http : String → Except String (Option (List QBAccount))),
      ConfigFrameOk exch s.config (queryAccountsRun s now exch o http).2.config) ∧
    (∀ (o : VendorQueryOptions) (http : String → Except String (Option (List QBVendor))),
      ConfigFrameOk exch s.config (queryVendorsRun s now exch o http).2.config) ∧
    (∀ (o : BillQueryOptions) (http : String → Except String (Option (List QBBill))),
      ConfigFrameOk exch s.config (queryBillsRun s now exch o http).2.config) ∧
    (∀ (cid : String) (http : String → Except String QBCustomer),
      ConfigFrameOk exch s.config (getCustomerRun s now exch cid http).2.config) ∧
    (∀ (d : InvoiceCreateData) (http : InvoiceBody → Except String QBInvoice),
      ConfigFrameOk exch s.config (createInvoiceRun s now exch d http).2.config) ∧
    (∀ (sd ed : String) (pf : String → Option ℚ)
      (http : String × String → Except String RawReport),
      ConfigFrameOk exch s.config (getProfitAndLossRun s now exch sd ed pf http).2.config) := by
  have hg := frame_getAccessToken s now exch
  refine ⟨hg, fun o http => ?_, fun o http => ?_, fun o http => ?_, fun o http => ?_,
    fun o http => ?_, fun cid http => ?_, fun d http => ?_, fun sd ed pf http => ?_⟩
  · unfold queryCustomersRun queryRun
    rw [withAuth_state]
    exact hg
  · unfold queryInvoicesRun queryRun
    rw [withAuth_state]
    exact hg
  · unfold queryAccountsRun queryRun
    rw [withAuth_state]
    exact hg
  · unfold queryVendorsRun queryRun
    rw [withAuth_state]
    exact hg
  · unfold queryBillsRun queryRun
    rw [withAuth_state]
    exact hg
  · unfold getCustomerRun
    have h2 := withAuth_state s now exch (fun _ => http ("/customer/" ++ cid))
    rcases hw : withAuth s now exch (fun _ => http ("/customer/" ++ cid)) with ⟨r, s₁⟩
    rw [hw] at h2
    have hs : s₁ = (getAccessToken s now exch).2 := h2
    cases r with
    | error er =>
      show ConfigFrameOk exch s.config s₁.config
      rw [hs]
      exact hg
    | ok c =>
      show ConfigFrameOk exch s.config s₁.config
      rw [hs]
      exact hg
  · unfold createInvoiceRun
    rw [withAuth_state]
    exact hg
  · unfold getProfitAndLossRun
    rw [withAuth_state]
    exact hg
